import Mathlib

/-!
Verification of the SpoMoodAgent repository (a mood-based Spotify playlist
recommender) against its natural-language specification.

The development shallowly embeds the core logic of
`my_agent/spotify_tool.py` and `my_agent/agent.py`:

* `refreshAccessToken` embeds `SpotifySearchTool._refresh_access_token`,
* `callSpotify` embeds `SpotifySearchTool._call_spotify`,
* `searchPlaylists` embeds `SpotifySearchTool.search_playlists`,
* `getPlaylistTopTracks` embeds `SpotifySearchTool.get_playlist_top_tracks`,
* `scorePlaylist` / `chooseBestPlaylist` embed
  `SpotifySearchTool.choose_best_playlist`,
* `formatLines` / `formatResult` embed `agent.format_result`,
* `handleMoodWithAgent` embeds `agent.handle_mood_with_agent`.

HTTP traffic is modelled by passing in, as explicit arguments, the response
the network would deliver if a request were made, and by recording in the
result how many requests were actually issued (`tokenPosts`, `apiGets`).
Timestamps (`time.time()`) are modelled as integers; Python string values
that may be `None` are modelled as `Option String`, and Python truthiness
of such values (`None` and `""` are falsy) is modelled by `pyTruthyOpt`.
-/

/-- Python truthiness of an optional string: `None` and `""` are falsy,
every other string is truthy. -/
def pyTruthyOpt : Option String → Bool
  | none => false
  | some s => !(s == "")

/-- The whitespace characters stripped by Python's `str.strip()` (restricted
to the ASCII range; the source never manipulates non-ASCII whitespace). -/
def pyIsSpace (c : Char) : Bool :=
  c == ' ' || c == '\t' || c == '\n' || c == '\r' ||
  c == (Char.ofNat 11) || c == (Char.ofNat 12)

/-- Python's `str.strip()`: drop leading and trailing whitespace. -/
def pyStrip (s : String) : String :=
  String.mk (((s.data.dropWhile pyIsSpace).reverse.dropWhile pyIsSpace).reverse)

/-- Python's substring test `needle in hay` on the underlying character
lists: some contiguous slice of `hay` equals `needle`. -/
def pyContainsList (needle : List Char) : List Char → Bool
  | [] => needle.isEmpty
  | c :: rest => needle.isPrefixOf (c :: rest) || pyContainsList needle rest

/-- Python's substring test `needle in hay` for strings. -/
def pyContains (hay needle : String) : Bool :=
  pyContainsList needle.data hay.data

/-- Python's `str.lower()` (ASCII range, the only one the source relies
on), computed characterwise so that it evaluates by kernel reduction. -/
def pyLower (s : String) : String :=
  String.mk (s.data.map Char.toLower)

/-- Value of digit characters, with Python's rule that single underscores
may appear between digits of an integer literal. `acc` is the value of the
digits already consumed. -/
def pyDigitsVal (acc : Nat) : List Char → Option Nat
  | [] => some acc
  | c :: cs =>
    if c.isDigit then pyDigitsVal (acc * 10 + (c.toNat - 48)) cs
    else if c == '_' then
      match cs with
      | [] => none
      | d :: cs2 =>
        if d.isDigit then pyDigitsVal (acc * 10 + (d.toNat - 48)) cs2
        else none
    else none

/-- Parse a nonempty unsigned decimal literal (first character must be a
digit). -/
def pyUnsignedVal : List Char → Option Nat
  | [] => none
  | c :: cs => if c.isDigit then pyDigitsVal (c.toNat - 48) cs else none

/-- Python's `int(s)` on a string: optional surrounding whitespace, an
optional sign, then a decimal literal; `none` models the `ValueError`
raised on any other input. -/
def pyIntParse (s : String) : Option Int :=
  match (((s.data.dropWhile pyIsSpace).reverse.dropWhile pyIsSpace).reverse) with
  | '+' :: rest => (pyUnsignedVal rest).map (fun n => (n : Int))
  | '-' :: rest => (pyUnsignedVal rest).map (fun n => -(n : Int))
  | l => (pyUnsignedVal l).map (fun n => (n : Int))

/-- Rendering of an optional string inside a Python f-string: `None`
renders as the text "None". -/
def showPyOpt : Option String → String
  | none => "None"
  | some s => s

/-- The exception taxonomy of the tool: `SpotifyAuthError`,
`SpotifySearchError`, and Python's built-in `ValueError`, each carrying
`str(e)`. -/
inductive PyError where
  | authError (msg : String)
  | searchError (msg : String)
  | valueError (msg : String)
deriving DecidableEq, Repr

/-- `str(e)` of a raised exception: the message it was constructed with. -/
def pyErrMsg : PyError → String
  | .authError m => m
  | .searchError m => m
  | .valueError m => m

/-- Whether an outcome is a raised `SpotifySearchError`. -/
def isSearchError {α : Type} : Except PyError α → Bool
  | .error (.searchError _) => true
  | _ => false

/-- Whether an outcome is a raised `SpotifyAuthError`. -/
def isAuthError {α : Type} : Except PyError α → Bool
  | .error (.authError _) => true
  | _ => false

/-- Whether an outcome is a raised `ValueError`. -/
def isValueError {α : Type} : Except PyError α → Bool
  | .error (.valueError _) => true
  | _ => false

/-- Whether an outcome is a normal return. -/
def isOkResult {α : Type} : Except PyError α → Bool
  | .ok _ => true
  | .error _ => false

/-- The credential bundle and cache ceiling fixed at construction of
`SpotifySearchTool` (`__init__`): `client_id`, `client_secret`,
`refresh_token` (each possibly absent), and `token_cache_seconds`
(default 300). -/
structure SpotifyConfig where
  client_id : Option String
  client_secret : Option String
  refresh_token : Option String
  token_cache_seconds : Int
deriving DecidableEq, Repr

/-- The mutable token cache of the tool: `self._access_token`
(initially `None`) and `self._token_expires_at` (initially `0`). -/
structure TokenState where
  access_token : Option String
  token_expires_at : Int
deriving DecidableEq, Repr

/-- The initial token cache set by `__init__`. -/
def initialTokenState : TokenState := { access_token := none, token_expires_at := 0 }

/-- The response the OAuth token endpoint would deliver to the refresh
POST: HTTP status, raw text, and the decoded JSON fields read by the code
(`access_token`, and `expires_in` with default 3600). -/
structure TokenResponse where
  status : Nat
  text : String
  access_token : Option String
  expires_in : Option Int
deriving DecidableEq, Repr

/-- Outcome of `_refresh_access_token`: the returned token or raised
error, the token cache afterwards, and how many POSTs to the token
endpoint were issued (0 or 1). -/
structure RefreshResult where
  result : Except PyError String
  state : TokenState
  tokenPosts : Nat
deriving Repr

/-- The credential check of `_refresh_access_token`:
`self.client_id and self.client_secret and self.refresh_token`. -/
def credsTruthy (cfg : SpotifyConfig) : Bool :=
  pyTruthyOpt cfg.client_id && pyTruthyOpt cfg.client_secret && pyTruthyOpt cfg.refresh_token

/-- The cache check of `_refresh_access_token`:
`self._access_token and now < self._token_expires_at`. -/
def cacheHit (st : TokenState) (now : Int) : Bool :=
  pyTruthyOpt st.access_token && decide (now < st.token_expires_at)

/-- Embedding of `SpotifySearchTool._refresh_access_token` (
my_agent/spotify_tool.py lines 54-93). `now` is `time.time()`; `resp` is
the response the token endpoint would give if the POST is issued. -/
def refreshAccessToken (cfg : SpotifyConfig) (st : TokenState) (now : Int)
    (resp : TokenResponse) : RefreshResult :=
  if !(credsTruthy cfg) then
    { result := .error (.authError "Spotify client ID / secret / refresh token not provided."),
      state := st, tokenPosts := 0 }
  else if cacheHit st now then
    { result := .ok (st.access_token.getD ""), state := st, tokenPosts := 0 }
  else if resp.status != 200 then
    { result := .error (.authError ("Failed to refresh token: " ++ toString resp.status ++ " " ++ resp.text)),
      state := st, tokenPosts := 1 }
  else if !(pyTruthyOpt resp.access_token) then
    { result := .error (.authError ("Refresh response missing access_token: " ++ resp.text)),
      state := st, tokenPosts := 1 }
  else
    { result := .ok (resp.access_token.getD ""),
      state := { access_token := resp.access_token,
                 token_expires_at := now + min (resp.expires_in.getD 3600) cfg.token_cache_seconds },
      tokenPosts := 1 }

/-- A response of the Spotify Web API as read by `_call_spotify`: HTTP
status, the `Retry-After` header (absent or a raw string), raw text, and
the decoded JSON body. -/
structure ApiResponse (α : Type) where
  status : Nat
  retryAfterHeader : Option String
  text : String
  body : α
deriving Repr

/-- Outcome of `_call_spotify`: result or raised error, the token cache
afterwards, POSTs to the token endpoint issued, and GETs to the API
issued (0 or 1). -/
structure CallResult (α : Type) where
  result : Except PyError α
  state : TokenState
  tokenPosts : Nat
  apiGets : Nat
deriving Repr

/-- Embedding of `SpotifySearchTool._call_spotify`
(my_agent/spotify_tool.py lines 95-115): obtain a token via
`refreshAccessToken`, then GET the API; a 429 status raises
`SpotifySearchError` with the parsed `Retry-After` header (default "1";
a header on which `int()` fails raises `ValueError`), any other status
`>= 400` raises `SpotifySearchError`, otherwise the JSON body is
returned. -/
def callSpotify {α : Type} (cfg : SpotifyConfig) (st : TokenState) (now : Int)
    (tokResp : TokenResponse) (r : ApiResponse α) : CallResult α :=
  let rr := refreshAccessToken cfg st now tokResp
  match rr.result with
  | .error e => { result := .error e, state := rr.state, tokenPosts := rr.tokenPosts, apiGets := 0 }
  | .ok _ =>
    if r.status == 429 then
      match pyIntParse (r.retryAfterHeader.getD "1") with
      | some k =>
        { result := .error (.searchError ("Rate limited by Spotify. Retry after " ++ toString k ++ " seconds.")),
          state := rr.state, tokenPosts := rr.tokenPosts, apiGets := 1 }
      | none =>
        { result := .error (.valueError ("invalid literal for int() with base 10: " ++ (r.retryAfterHeader.getD "1"))),
          state := rr.state, tokenPosts := rr.tokenPosts, apiGets := 1 }
    else if 400 ≤ r.status then
      { result := .error (.searchError ("Spotify API error: " ++ toString r.status ++ " - " ++ r.text)),
        state := rr.state, tokenPosts := rr.tokenPosts, apiGets := 1 }
    else
      { result := .ok r.body, state := rr.state, tokenPosts := rr.tokenPosts, apiGets := 1 }

/-- A playlist object as consumed by `choose_best_playlist` and
`search_by_mood`. The Python dict accesses are flattened to fields:
`name`, `description`, `owner.display_name`, `external_urls.spotify`, and
`followers.total` (absent at either level models the dict defaults, i.e.
an effective follower total of 0). -/
structure Playlist where
  id : Option String
  name : Option String
  description : Option String
  owner_display_name : Option String
  external_urls_spotify : Option String
  followers_total : Option Int
deriving DecidableEq, Repr

/-- The per-candidate score computed inside
`SpotifySearchTool.choose_best_playlist` (my_agent/spotify_tool.py lines
177-191): +50 for the lowercased mood occurring in the lowercased name,
+30 for it occurring in the lowercased description, plus
`min(followers // 1000, 20)` (Python floor division). -/
def scorePlaylist (mood : String) (p : Playlist) : Int :=
  let mood_lower := pyLower mood
  let name := pyLower (p.name.getD "")
  let desc := pyLower (p.description.getD "")
  (if pyContains name mood_lower then 50 else 0)
  + (if pyContains desc mood_lower then 30 else 0)
  + min ((p.followers_total.getD 0).fdiv 1000) 20

/-- Embedding of `SpotifySearchTool.choose_best_playlist`
(my_agent/spotify_tool.py lines 168-196): score every candidate, sort the
(score, playlist) pairs descending by score with a stable sort
(Python's `list.sort(key=..., reverse=True)` is stable; `List.mergeSort`
is the stable sort of the Lean library), and return the first element.
Returns `none` exactly on the empty candidate list. -/
def chooseBestPlaylist (playlists : List Playlist) (mood : String) : Option Playlist :=
  if playlists.isEmpty then none
  else
    let scored := playlists.map (fun p => (scorePlaylist mood p, p))
    let sorted := scored.mergeSort (fun a b => decide (b.1 ≤ a.1))
    sorted.head?.map (fun x => x.2)

/-- An artist object inside a track payload: only the `name` field is
read (with default `""`). -/
structure ArtistObj where
  name : Option String
deriving DecidableEq, Repr

/-- A track payload as delivered inside a playlist-tracks item. -/
structure TrackObj where
  name : Option String
  artists : List ArtistObj
  preview_url : Option String
  external_urls_spotify : Option String
deriving DecidableEq, Repr

/-- One item of the playlist-tracks response: its `track` payload may be
missing/null (`none`). -/
structure TrackItem where
  track : Option TrackObj
deriving DecidableEq, Repr

/-- The simplified track dict built by `get_playlist_top_tracks`:
`{name, artists (comma-joined string), preview_url, track_url}`. -/
structure Track where
  name : Option String
  artists : String
  preview_url : Option String
  track_url : Option String
deriving DecidableEq, Repr

/-- The simplification of one track payload performed in the loop body of
`get_playlist_top_tracks` (my_agent/spotify_tool.py lines 154-163). -/
def simplifyTrack (t : TrackObj) : Track :=
  { name := t.name,
    artists := String.intercalate ", " (t.artists.map (fun a => a.name.getD "")),
    preview_url := t.preview_url,
    track_url := t.external_urls_spotify }

/-- The collecting loop of `get_playlist_top_tracks`
(my_agent/spotify_tool.py lines 149-166): walk the items in order, skip
items without a track payload, append the simplified track, and break as
soon as the collected list has reached length `top_n`. -/
def collectTopTracks (top_n : Nat) : List TrackItem → List Track → List Track
  | [], tracks => tracks
  | it :: rest, tracks =>
    match it.track with
    | none => collectTopTracks top_n rest tracks
    | some t =>
      let tracks2 := tracks ++ [simplifyTrack t]
      if top_n ≤ tracks2.length then tracks2
      else collectTopTracks top_n rest tracks2

/-- Embedding of the post-processing of
`SpotifySearchTool.get_playlist_top_tracks` on the `items` of the
playlist-tracks response (the HTTP call itself goes through
`callSpotify`, see `getPlaylistTopTracksCall`). -/
def getPlaylistTopTracks (items : List TrackItem) (top_n : Nat) : List Track :=
  collectTopTracks top_n items []

/-- Full embedding of `SpotifySearchTool.get_playlist_top_tracks`
(my_agent/spotify_tool.py lines 139-166), threading the token cache. -/
def getPlaylistTopTracksCall (cfg : SpotifyConfig) (st : TokenState) (now : Int)
    (tokResp : TokenResponse) (r : ApiResponse (List TrackItem)) (top_n : Nat) :
    CallResult (List Track) :=
  let c := callSpotify cfg st now tokResp r
  match c.result with
  | .error e => { result := .error e, state := c.state, tokenPosts := c.tokenPosts, apiGets := c.apiGets }
  | .ok items =>
    { result := .ok (getPlaylistTopTracks items top_n),
      state := c.state, tokenPosts := c.tokenPosts, apiGets := c.apiGets }

/-- Outcome of `search_playlists`: result or raised error, the token
cache afterwards, POSTs to the token endpoint issued, and the `q`
parameters of the GET requests actually issued to the search endpoint. -/
structure SearchOutcome where
  result : Except PyError (List Playlist)
  state : TokenState
  tokenPosts : Nat
  queriesSent : List String
deriving Repr

/-- Embedding of `SpotifySearchTool.search_playlists`
(my_agent/spotify_tool.py lines 117-137): an empty or whitespace-only
mood raises `ValueError` before any network traffic; otherwise the query
`mood ++ " playlist"` is sent (the `type` and `limit` parameters carry no
logic and are elided), and null entries are filtered out of the returned
`playlists.items` list. -/
def searchPlaylists (cfg : SpotifyConfig) (st : TokenState) (now : Int)
    (tokResp : TokenResponse) (mood : String)
    (r : ApiResponse (List (Option Playlist))) : SearchOutcome :=
  if mood == "" || pyStrip mood == "" then
    { result := .error (.valueError "Invalid mood value (empty)."),
      state := st, tokenPosts := 0, queriesSent := [] }
  else
    let q := mood ++ " playlist"
    let c := callSpotify cfg st now tokResp r
    let sent := if c.apiGets == 1 then [q] else []
    match c.result with
    | .error e =>
      { result := .error e, state := c.state, tokenPosts := c.tokenPosts, queriesSent := sent }
    | .ok body =>
      { result := .ok (body.filterMap id), state := c.state,
        tokenPosts := c.tokenPosts, queriesSent := sent }

/-- The playlist metadata dict built by `search_by_mood` and consumed by
`format_result`: `{id, name, description, external_url, owner}`. -/
structure PlaylistInfo where
  id : Option String
  name : Option String
  description : Option String
  external_url : Option String
  owner : Option String
deriving DecidableEq, Repr

/-- One enumerated track line of `format_result`
(my_agent/agent.py lines 116-118), with `i` counting from 0 (Python
enumerates from 1): preview falls back from `preview_url` to `track_url`
to the placeholder "No preview" through Python `or` (falsy = `None` or
`""`). -/
def trackLine (i : Nat) (t : Track) : String :=
  let preview :=
    if pyTruthyOpt t.preview_url then t.preview_url.getD ""
    else if pyTruthyOpt t.track_url then t.track_url.getD ""
    else "No preview"
  toString (i + 1) ++ ". " ++ showPyOpt t.name ++ " — " ++ t.artists ++
    "  |  Preview/Link: " ++ preview

/-- The `lines` list built by `agent.format_result`
(my_agent/agent.py lines 101-119): header with name and owner, the link
line only for a truthy external url, the description line only for a
truthy description, the "\nTop recommendations:" header, the explicit
no-tracks line only for an empty track list, then one enumerated line per
track. -/
def formatLines (playlist : PlaylistInfo) (tracks : List Track) : List String :=
  ["Recommended playlist: " ++ showPyOpt playlist.name ++ " (by " ++ showPyOpt playlist.owner ++ ")"]
  ++ (if pyTruthyOpt playlist.external_url then ["Playlist link: " ++ showPyOpt playlist.external_url] else [])
  ++ (if pyTruthyOpt playlist.description then ["Description: " ++ showPyOpt playlist.description] else [])
  ++ ["\nTop recommendations:"]
  ++ (if tracks.isEmpty then ["No tracks found in the playlist."] else [])
  ++ (tracks.enum.map (fun q => trackLine q.1 q.2))

/-- Embedding of `agent.format_result`: the lines joined with newlines
(Python's "\n".join). A pure function of its input. -/
def formatResult (playlist : PlaylistInfo) (tracks : List Track) : String :=
  String.intercalate "\n" (formatLines playlist tracks)

/-- The observable behaviour of the optional ADK agent inside
`handle_mood_with_agent`: either no agent was constructed (`noAgent`),
or `root_agent.run`/`respond` returned a value whose string form is `s`
(`runReturns`), or the orchestration attempt raised an exception with
message `m` (`runRaises`; this includes the `RuntimeError` raised when
the agent lacks a run/respond method). -/
inductive AgentRun where
  | noAgent
  | runReturns (s : String)
  | runRaises (m : String)
deriving DecidableEq, Repr

/-- Embedding of `agent.handle_mood_with_agent`
(my_agent/agent.py lines 59-99). `toolOutcome` is what
`spotify_tool.search_by_mood(mood)` would do if called: return a
playlist-info/track-list pair, or raise. Every raised error is caught
and converted to a message string; the function is total. -/
def handleMoodWithAgent (agent : AgentRun)
    (toolOutcome : Except PyError (PlaylistInfo × List Track)) : String :=
  match agent with
  | .runReturns s => s
  | .runRaises m =>
    let fallback_reason := "(Agent orchestration failed with: " ++ m ++ ")\nFalling back to direct Spotify call.\n"
    match toolOutcome with
    | .ok r => fallback_reason ++ formatResult r.1 r.2
    | .error e2 => fallback_reason ++ "Also failed to get data from Spotify: " ++ pyErrMsg e2
  | .noAgent =>
    match toolOutcome with
    | .ok r => formatResult r.1 r.2
    | .error (.searchError m) => "Spotify API error: " ++ m
    | .error e => "Unexpected error: " ++ pyErrMsg e

/-- A fixed well-formed credential bundle, used in concrete instances. -/
def cfgW : SpotifyConfig :=
  { client_id := some "id", client_secret := some "secret",
    refresh_token := some "rtok", token_cache_seconds := 300 }

/-- A credential bundle with a missing secret, used in concrete instances. -/
def cfgNoSecret : SpotifyConfig :=
  { client_id := some "id", client_secret := none,
    refresh_token := some "rtok", token_cache_seconds := 300 }

/-- A successful token-endpoint response, used in concrete instances. -/
def tokRespW : TokenResponse :=
  { status := 200, text := "", access_token := some "tok", expires_in := some 3600 }

/-- C1. Token reuse invariant: with the credentials present (which is the
case whenever a cached token exists, since only a successful refresh -
which requires them - ever stores one), a call with a truthy cached token
whose expiry lies in the future returns the cached token, issues no POST
and leaves the cache unchanged; a call without a valid cached token
issues exactly one POST, and when that refresh succeeds the new expiry is
`now + min(server-declared lifetime, configured cache ceiling)`. -/
theorem token_reuse_invariant (cfg : SpotifyConfig) (st : TokenState) (now : Int)
    (resp : TokenResponse) (hcred : credsTruthy cfg = true) :
    (cacheHit st now = true →
      refreshAccessToken cfg st now resp =
        { result := .ok (st.access_token.getD ""), state := st, tokenPosts := 0 }) ∧
    (cacheHit st now = false →
      (refreshAccessToken cfg st now resp).tokenPosts = 1 ∧
      (resp.status = 200 → pyTruthyOpt resp.access_token = true →
        refreshAccessToken cfg st now resp =
          { result := .ok (resp.access_token.getD ""),
            state := { access_token := resp.access_token,
                       token_expires_at := now + min (resp.expires_in.getD 3600) cfg.token_cache_seconds },
            tokenPosts := 1 })) := by
  constructor
  · intro hcache
    simp [refreshAccessToken, hcred, hcache]
  · intro hcache
    constructor
    · simp only [refreshAccessToken, hcred, hcache, Bool.not_true, Bool.false_eq_true,
        if_false]
      split
      · rfl
      · split <;> rfl
    · intro hst htok
      simp [refreshAccessToken, hcred, hcache, hst, htok]

/-- Witness for C1: a concrete cached, unexpired token is returned as-is
with no POST, and a concrete expired cache triggers exactly one POST
whose success stores expiry `now + min(3600, 300)`. -/
theorem token_reuse_invariant_witness :
    credsTruthy cfgW = true ∧ cacheHit { access_token := some "cached", token_expires_at := 100 } 50 = true ∧
    refreshAccessToken cfgW { access_token := some "cached", token_expires_at := 100 } 50 tokRespW =
      { result := .ok "cached", state := { access_token := some "cached", token_expires_at := 100 }, tokenPosts := 0 } ∧
    refreshAccessToken cfgW { access_token := some "cached", token_expires_at := 100 } 200 tokRespW =
      { result := .ok "tok",
        state := { access_token := some "tok", token_expires_at := 200 + min 3600 300 }, tokenPosts := 1 } :=
  ⟨by decide, by decide,
   (token_reuse_invariant cfgW _ 50 tokRespW (by decide)).1 (by decide),
   ((token_reuse_invariant cfgW _ 200 tokRespW (by decide)).2 (by decide)).2 (by decide) (by decide)⟩

/-- A 200 token response whose `access_token` field is present but empty:
the code treats it like a missing field (Python truthiness). -/
def tokRespEmpty : TokenResponse :=
  { status := 200, text := "(body)", access_token := some "", expires_in := some 3600 }

/-- Counterexample to C7 as stated: with all credentials present, no
cached token, a 200 refresh response, and the access-token field present
(with value ""), the code still raises `SpotifyAuthError`, although none
of the claimed failure conditions (missing credential, non-success
status, absent token field) holds. -/
theorem token_failure_counterexample :
    credsTruthy cfgW = true ∧
    tokRespEmpty.status = 200 ∧
    tokRespEmpty.access_token ≠ none ∧
    isAuthError (refreshAccessToken cfgW initialTokenState 1000 tokRespEmpty).result = true := by
  decide

/-- C7 (amended): `_refresh_access_token` raises `SpotifyAuthError`
exactly when a credential is missing, or no valid cached token exists and
the refresh exchange returns a non-200 status or a body whose
access-token field is absent or empty (Python-falsy); in every other
case it returns a token, and no other error kind is ever raised. -/
theorem token_failure_conditions (cfg : SpotifyConfig) (st : TokenState) (now : Int)
    (resp : TokenResponse) :
    (isAuthError (refreshAccessToken cfg st now resp).result = true ↔
      (credsTruthy cfg = false ∨
        (cacheHit st now = false ∧
          (resp.status ≠ 200 ∨ pyTruthyOpt resp.access_token = false)))) ∧
    (isOkResult (refreshAccessToken cfg st now resp).result = true ↔
      ¬ (credsTruthy cfg = false ∨
        (cacheHit st now = false ∧
          (resp.status ≠ 200 ∨ pyTruthyOpt resp.access_token = false)))) := by
  unfold refreshAccessToken
  split
  · next h =>
    have hc : credsTruthy cfg = false := by simpa using h
    simp [isAuthError, isOkResult, hc]
  · next h =>
    have hc : credsTruthy cfg = true := by simpa using h
    split
    · next h2 =>
      have hh : cacheHit st now = true := h2
      simp [isAuthError, isOkResult, hc, hh]
    · next h2 =>
      have hh : cacheHit st now = false := by simpa using h2
      split
      · next h3 =>
        have hs : resp.status ≠ 200 := by simpa using h3
        simp [isAuthError, isOkResult, hc, hh, hs]
      · next h3 =>
        have hs : resp.status = 200 := by simpa using h3
        split
        · next h4 =>
          have ht : pyTruthyOpt resp.access_token = false := by simpa using h4
          simp [isAuthError, isOkResult, hc, hh, hs, ht]
        · next h4 =>
          have ht : pyTruthyOpt resp.access_token = true := by simpa using h4
          simp [isAuthError, isOkResult, hc, hh, hs, ht]

/-- A trivial API response used to instantiate oracles in concrete
instances. -/
def apiRespUnit : ApiResponse Unit :=
  { status := 200, retryAfterHeader := none, text := "", body := () }

/-- C9. Frame property of the token cache: whenever
`_refresh_access_token` raises, the cached token and expiry are exactly
the ones from before the call; and the other operations
(`_call_spotify`, `search_playlists`, `get_playlist_top_tracks`) never
change the cache except through the embedded refresh call (their
resulting cache is exactly the refresh call's, or the unchanged one when
validation fails before any call). -/
theorem token_cache_frame {α : Type} (cfg : SpotifyConfig) (st : TokenState) (now : Int)
    (tokResp : TokenResponse) (r : ApiResponse α)
    (r2 : ApiResponse (List (Option Playlist))) (r3 : ApiResponse (List TrackItem))
    (mood : String) (top_n : Nat) :
    (isOkResult (refreshAccessToken cfg st now tokResp).result = false →
      (refreshAccessToken cfg st now tokResp).state = st) ∧
    (callSpotify cfg st now tokResp r).state = (refreshAccessToken cfg st now tokResp).state ∧
    (searchPlaylists cfg st now tokResp mood r2).state =
      (if (mood == "" || pyStrip mood == "") = true then st
       else (refreshAccessToken cfg st now tokResp).state) ∧
    (getPlaylistTopTracksCall cfg st now tokResp r3 top_n).state =
      (refreshAccessToken cfg st now tokResp).state := by
  have hcall : ∀ {β : Type} (rr : ApiResponse β),
      (callSpotify cfg st now tokResp rr).state = (refreshAccessToken cfg st now tokResp).state := by
    intro β rr
    cases h : (refreshAccessToken cfg st now tokResp).result with
    | error e => simp [callSpotify, h]
    | ok t =>
      simp only [callSpotify, h]
      split
      · split <;> rfl
      · split <;> rfl
  refine ⟨?_, hcall r, ?_, ?_⟩
  · intro herr
    unfold refreshAccessToken at herr ⊢
    by_cases h1 : (!credsTruthy cfg) = true
    · rw [if_pos h1]
    · rw [if_neg h1] at herr ⊢
      by_cases h2 : cacheHit st now = true
      · rw [if_pos h2]
      · rw [if_neg h2] at herr ⊢
        by_cases h3 : (tokResp.status != 200) = true
        · rw [if_pos h3]
        · rw [if_neg h3] at herr ⊢
          by_cases h4 : (!pyTruthyOpt tokResp.access_token) = true
          · rw [if_pos h4]
          · rw [if_neg h4] at herr
            simp [isOkResult] at herr
  · unfold searchPlaylists
    split
    · next h => simp [h]
    · next h =>
      cases hc : (callSpotify cfg st now tokResp r2).result with
      | error e => simp only [hc]; exact hcall r2
      | ok b => simp only [hc]; exact hcall r2
  · cases hc : (callSpotify cfg st now tokResp r3).result with
    | error e => simp only [getPlaylistTopTracksCall, hc]; exact hcall r3
    | ok b => simp only [getPlaylistTopTracksCall, hc]; exact hcall r3

/-- Witness for C9: a concrete failing refresh (missing client secret)
leaves the initial cache unchanged. -/
theorem token_cache_frame_witness :
    isOkResult (refreshAccessToken cfgNoSecret initialTokenState 0 tokRespW).result = false ∧
    (refreshAccessToken cfgNoSecret initialTokenState 0 tokRespW).state = initialTokenState :=
  ⟨by decide,
   (token_cache_frame cfgNoSecret initialTokenState 0 tokRespW apiRespUnit
      { status := 200, retryAfterHeader := none, text := "", body := [] }
      { status := 200, retryAfterHeader := none, text := "", body := [] }
      "happy" 5).1 (by decide)⟩

/-- A 429 API response whose Retry-After header is not an integer string
(RFC 7231 also allows HTTP-dates there). -/
def api429Bad : ApiResponse Unit :=
  { status := 429, retryAfterHeader := some "soon", text := "", body := () }

/-- A 429 API response with Retry-After header "5". -/
def api429Five : ApiResponse Unit :=
  { status := 429, retryAfterHeader := some "5", text := "", body := () }

/-- Counterexample to C5 as stated: a 429 response whose Retry-After
header is the non-integer string "soon" makes `_call_spotify` raise
`ValueError` (from `int(...)`), not `SpotifySearchError`. -/
theorem rate_limit_counterexample :
    api429Bad.status = 429 ∧
    isSearchError (callSpotify cfgW initialTokenState 0 tokRespW api429Bad).result = false ∧
    isValueError (callSpotify cfgW initialTokenState 0 tokRespW api429Bad).result = true := by
  decide

/-- C5 (amended): for a 429 response reached with a usable token, when
the Retry-After header is absent the raised `SpotifySearchError` message
contains the default value 1; when the header is an integer string, the
raised `SpotifySearchError` message contains that parsed value; a header
on which `int()` fails instead raises `ValueError`. -/
theorem rate_limit_mapping {α : Type} (cfg : SpotifyConfig) (st : TokenState) (now : Int)
    (tokResp : TokenResponse) (r : ApiResponse α)
    (hok : isOkResult (refreshAccessToken cfg st now tokResp).result = true)
    (h429 : r.status = 429) :
    (r.retryAfterHeader = none →
      (callSpotify cfg st now tokResp r).result =
        .error (.searchError "Rate limited by Spotify. Retry after 1 seconds.")) ∧
    (∀ s k, r.retryAfterHeader = some s → pyIntParse s = some k →
      (callSpotify cfg st now tokResp r).result =
        .error (.searchError ("Rate limited by Spotify. Retry after " ++ toString k ++ " seconds.")) ∧
      List.IsInfix (toString k).data
        ("Rate limited by Spotify. Retry after " ++ toString k ++ " seconds.").data) ∧
    (∀ s, r.retryAfterHeader = some s → pyIntParse s = none →
      isValueError (callSpotify cfg st now tokResp r).result = true) := by
  cases hres : (refreshAccessToken cfg st now tokResp).result with
  | error e => rw [hres] at hok; simp [isOkResult] at hok
  | ok t =>
    have h429' : (r.status == 429) = true := by simp [h429]
    refine ⟨?_, ?_, ?_⟩
    · intro hh
      simp [callSpotify, hres, h429', hh, show pyIntParse "1" = some 1 from rfl]
      rfl
    · intro s k hh hparse
      refine ⟨?_, ?_⟩
      · simp [callSpotify, hres, h429', hh, hparse]
      · exact ⟨("Rate limited by Spotify. Retry after ").data, (" seconds.").data,
          by rw [← String.data_append, ← String.data_append]⟩
    · intro s hh hparse
      simp [callSpotify, hres, h429', hh, hparse, isValueError]

/-- Witness for C5: with a valid refresh and header "5", the theorem
yields the concrete rate-limit message containing "5". -/
theorem rate_limit_mapping_witness :
    isOkResult (refreshAccessToken cfgW initialTokenState 0 tokRespW).result = true ∧
    api429Five.status = 429 ∧
    ((callSpotify cfgW initialTokenState 0 tokRespW api429Five).result =
        .error (.searchError ("Rate limited by Spotify. Retry after " ++ toString (5 : Int) ++ " seconds.")) ∧
      List.IsInfix (toString (5 : Int)).data
        ("Rate limited by Spotify. Retry after " ++ toString (5 : Int) ++ " seconds.").data) :=
  ⟨by decide, by decide,
   (rate_limit_mapping cfgW initialTokenState 0 tokRespW api429Five (by decide) (by decide)).2.1
     "5" 5 rfl (by decide)⟩

/-- A successful, empty search response used in concrete instances. -/
def apiSearchEmpty : ApiResponse (List (Option Playlist)) :=
  { status := 200, retryAfterHeader := none, text := "", body := [] }

/-- C6. Mood validation and query construction: an empty-or-whitespace
mood makes `search_playlists` raise `ValueError` with no token POST and
no search GET issued; for any other mood, every query actually sent to
the search endpoint is exactly the mood followed by " playlist". -/
theorem mood_validation_query (cfg : SpotifyConfig) (st : TokenState) (now : Int)
    (tokResp : TokenResponse) (mood : String)
    (r : ApiResponse (List (Option Playlist))) :
    (pyStrip mood = "" →
      searchPlaylists cfg st now tokResp mood r =
        { result := .error (.valueError "Invalid mood value (empty)."),
          state := st, tokenPosts := 0, queriesSent := [] }) ∧
    (pyStrip mood ≠ "" →
      ∀ q ∈ (searchPlaylists cfg st now tokResp mood r).queriesSent,
        q = mood ++ " playlist") := by
  constructor
  · intro h
    have hcond : (mood == "" || pyStrip mood == "") = true := by
      simp [h]
    simp [searchPlaylists, hcond]
  · intro h
    have hne : ¬ mood = "" := by
      intro hm
      exact h (by rw [hm]; rfl)
    have hcond : (mood == "" || pyStrip mood == "") = false := by
      simp [hne, h]
    intro q hq
    simp only [searchPlaylists, hcond, Bool.false_eq_true, if_false] at hq
    cases hc : (callSpotify cfg st now tokResp r).result with
    | error e =>
      rw [hc] at hq
      simp only at hq
      split at hq <;> simp_all
    | ok b =>
      rw [hc] at hq
      simp only at hq
      split at hq <;> simp_all

/-- Witness for C6: the whitespace mood "  " is rejected up front with no
traffic, and for the mood "happy" every query sent equals
"happy playlist". -/
theorem mood_validation_query_witness :
    (pyStrip "  " = "" ∧
      searchPlaylists cfgW initialTokenState 0 tokRespW "  " apiSearchEmpty =
        { result := .error (.valueError "Invalid mood value (empty)."),
          state := initialTokenState, tokenPosts := 0, queriesSent := [] }) ∧
    (pyStrip "happy" ≠ "" ∧
      ∀ q ∈ (searchPlaylists cfgW initialTokenState 0 tokRespW "happy" apiSearchEmpty).queriesSent,
        q = "happy" ++ " playlist") :=
  ⟨⟨by decide,
    (mood_validation_query cfgW initialTokenState 0 tokRespW "  " apiSearchEmpty).1 (by decide)⟩,
   ⟨by decide,
    (mood_validation_query cfgW initialTokenState 0 tokRespW "happy" apiSearchEmpty).2 (by decide)⟩⟩

/-- Characterization of the collecting loop of `get_playlist_top_tracks`
for a positive cap: with fewer than `top_n` tracks already collected, the
loop appends the simplified present tracks in order, truncated to fill up
to `top_n`. -/
theorem collectTopTracks_eq (top_n : Nat) (items : List TrackItem) :
    ∀ (acc : List Track), acc.length < top_n →
      collectTopTracks top_n items acc =
        acc ++ (((items.filterMap (fun it => it.track)).map simplifyTrack).take (top_n - acc.length)) := by
  induction items with
  | nil => intro acc h; simp [collectTopTracks]
  | cons it rest ih =>
    intro acc h
    cases htr : it.track with
    | none => simp [collectTopTracks, htr, ih acc h]
    | some t =>
      simp only [collectTopTracks, htr, List.filterMap_cons, List.map_cons]
      by_cases hstop : top_n ≤ (acc ++ [simplifyTrack t]).length
      · rw [if_pos hstop]
        have hlen : top_n - acc.length = 1 := by
          simp at hstop
          omega
        rw [hlen]
        simp
      · rw [if_neg hstop]
        have hlt : (acc ++ [simplifyTrack t]).length < top_n := by
          simp at hstop ⊢
          omega
        rw [ih _ hlt]
        have hsub : top_n - acc.length = (top_n - (acc ++ [simplifyTrack t]).length) + 1 := by
          simp
          omega
        rw [hsub, List.take_succ_cons]
        simp

/-- A concrete present track payload. -/
def trackObjW : TrackObj :=
  { name := some "song", artists := [{ name := some "artist" }],
    preview_url := none, external_urls_spotify := some "url" }

/-- A response item carrying `trackObjW`. -/
def itemW : TrackItem := { track := some trackObjW }

/-- Counterexample to C4 as stated: the claim quantifies over every
`top_n`, but with `top_n = 0` the loop appends a first track before
checking the cap, so one track is returned, not at most zero. -/
theorem track_truncation_counterexample :
    (getPlaylistTopTracks [itemW] 0).length = 1 ∧
    ¬ ((getPlaylistTopTracks [itemW] 0).length ≤ 0) := by
  decide

/-- C4 (amended): for every playlist-tracks response and every
`top_n ≥ 1`, `get_playlist_top_tracks` returns the simplified present
tracks in the original order, truncated to at most `top_n`; when at least
`top_n` present tracks are available, exactly `top_n` are returned. (For
`top_n = 0` the code still returns the first present track.) -/
theorem track_truncation (items : List TrackItem) (top_n : Nat) (h : 1 ≤ top_n) :
    getPlaylistTopTracks items top_n =
      ((items.filterMap (fun it => it.track)).map simplifyTrack).take top_n ∧
    (getPlaylistTopTracks items top_n).length ≤ top_n ∧
    (top_n ≤ (items.filterMap (fun it => it.track)).length →
      (getPlaylistTopTracks items top_n).length = top_n) := by
  have heq := collectTopTracks_eq top_n items [] (by simpa using h)
  simp only [List.nil_append, Nat.sub_zero] at heq
  refine ⟨heq, ?_, ?_⟩
  · rw [getPlaylistTopTracks, heq]
    simp
  · intro hge
    rw [getPlaylistTopTracks, heq]
    simp
    omega

/-- Witness for C4: fifty available tracks and `top_n = 5` give exactly
five tracks, in original order. -/
theorem track_truncation_witness :
    1 ≤ 5 ∧
    getPlaylistTopTracks (List.replicate 50 itemW) 5 =
      (((List.replicate 50 itemW).filterMap (fun it => it.track)).map simplifyTrack).take 5 ∧
    (getPlaylistTopTracks (List.replicate 50 itemW) 5).length = 5 :=
  ⟨by decide,
   (track_truncation (List.replicate 50 itemW) 5 (by decide)).1,
   (track_truncation (List.replicate 50 itemW) 5 (by decide)).2.2 (by decide)⟩

/-- The embedded Python substring test agrees with contiguous-sublist
containment. -/
theorem pyContainsList_iff_infixOf (needle hay : List Char) :
    pyContainsList needle hay = true ↔ needle <:+: hay := by
  induction hay with
  | nil =>
    simp [pyContainsList, List.isEmpty_iff]
  | cons c rest ih =>
    simp [pyContainsList, List.infix_cons_iff, ih, List.isPrefixOf_iff_prefix]

/-- String form of `pyContainsList_iff_infixOf`. -/
theorem pyContains_iff (hay needle : String) :
    pyContains hay needle = true ↔ needle.data <:+: hay.data :=
  pyContainsList_iff_infixOf needle.data hay.data

/-- Head of a list merge-sorted descending by an integer key: it is the
first element of the input attaining the maximal key. Combined with the
stability of the sort, this captures Python's
`sort(key=..., reverse=True)` followed by taking element 0. -/
theorem head_mergeSort_first_max {α : Type} (key : α → Int) (l : List α) (hne : l ≠ []) :
    ∃ l₁ a l₂, l = l₁ ++ a :: l₂ ∧
      (l.mergeSort (fun x y => decide (key y ≤ key x))).head? = some a ∧
      (∀ b ∈ l, key b ≤ key a) ∧
      (∀ b ∈ l₁, key b < key a) := by
  have htrans : ∀ (a b c : α), (decide (key b ≤ key a)) = true →
      (decide (key c ≤ key b)) = true → (decide (key c ≤ key a)) = true := by
    intro a b c hab hbc
    simp only [decide_eq_true_eq] at *
    exact le_trans hbc hab
  have htotal : ∀ (a b : α), ((decide (key b ≤ key a)) || (decide (key a ≤ key b))) = true := by
    intro a b
    simp only [Bool.or_eq_true, decide_eq_true_eq]
    exact Int.le_total (key b) (key a)
  have hperm := List.mergeSort_perm l (fun x y => decide (key y ≤ key x))
  cases hs : l.mergeSort (fun x y => decide (key y ≤ key x)) with
  | nil =>
    rw [hs] at hperm
    have h0 := hperm.length_eq
    simp only [List.length_nil] at h0
    exact absurd (List.length_eq_zero.mp h0.symm) hne
  | cons a t =>
    have ha_mem : a ∈ l := List.mem_mergeSort.mp (by rw [hs]; exact List.mem_cons_self a t)
    have hsorted := List.sorted_mergeSort htrans htotal l
    rw [hs] at hsorted
    have hmax : ∀ b ∈ l, key b ≤ key a := by
      intro b hb
      have hb' : b ∈ a :: t := by rw [← hs]; exact List.mem_mergeSort.mpr hb
      rcases List.mem_cons.mp hb' with h | h
      · exact le_of_eq (by rw [h])
      · have := List.rel_of_pairwise_cons hsorted h
        simpa using this
    have hpa : (fun b => decide (key a ≤ key b)) a = true := by simp
    have hlm_pw : List.Pairwise (fun x y => (decide (key y ≤ key x)) = true)
        (l.filter (fun b => decide (key a ≤ key b))) := by
      apply List.pairwise_of_forall_mem_list
      intro x hx y hy
      have hxm := List.mem_filter.mp hx
      have hym := List.mem_filter.mp hy
      have h1 : key a ≤ key x := by simpa using hxm.2
      have h2 : key y ≤ key a := hmax y hym.1
      simp only [decide_eq_true_eq]
      exact le_trans h2 h1
    have hsub := List.sublist_mergeSort htrans htotal hlm_pw
      (List.filter_sublist l)
    have hfil_perm : ((l.mergeSort (fun x y => decide (key y ≤ key x))).filter
          (fun b => decide (key a ≤ key b))).Perm
        (l.filter (fun b => decide (key a ≤ key b))) :=
      hperm.filter _
    have hsub2 : (l.filter (fun b => decide (key a ≤ key b))).Sublist
        ((l.mergeSort (fun x y => decide (key y ≤ key x))).filter
          (fun b => decide (key a ≤ key b))) := by
      have h' := List.Sublist.filter (fun b => decide (key a ≤ key b)) hsub
      rwa [List.filter_eq_self.mpr (fun x hx => (List.mem_filter.mp hx).2)] at h'
    have heq : l.filter (fun b => decide (key a ≤ key b)) =
        (l.mergeSort (fun x y => decide (key y ≤ key x))).filter
          (fun b => decide (key a ≤ key b)) :=
      hsub2.eq_of_length (hfil_perm.length_eq.symm)
    rw [hs, List.filter_cons, if_pos hpa] at heq
    obtain ⟨l₁, l₂, hsplit, hnot, -, -⟩ := List.filter_eq_cons_iff.mp heq
    refine ⟨l₁, a, l₂, hsplit, rfl, hmax, ?_⟩
    intro b hb
    have hb' := hnot b hb
    simp only [decide_eq_true_eq] at hb'
    omega

/-- Characterization of `chooseBestPlaylist` on a nonempty candidate
list: it returns the first candidate attaining the maximal score. -/
theorem chooseBestPlaylist_first_max (playlists : List Playlist) (mood : String)
    (hne : playlists ≠ []) :
    ∃ l₁ best l₂, playlists = l₁ ++ best :: l₂ ∧
      chooseBestPlaylist playlists mood = some best ∧
      (∀ p ∈ playlists, scorePlaylist mood p ≤ scorePlaylist mood best) ∧
      (∀ p ∈ l₁, scorePlaylist mood p < scorePlaylist mood best) := by
  obtain ⟨s₁, a, s₂, hsplit, hhead, hmax, hfirst⟩ :=
    head_mergeSort_first_max (fun x : Int × Playlist => x.1)
      (playlists.map (fun p => (scorePlaylist mood p, p)))
      (by simpa using hne)
  obtain ⟨u, v, huv, hu, hv⟩ := List.map_eq_append_iff.mp hsplit
  obtain ⟨q, v', hv', hfq, hv's⟩ := List.map_eq_cons_iff.mp hv
  have hbest : chooseBestPlaylist playlists mood = some q := by
    have hie : playlists.isEmpty = false := by
      cases playlists with
      | nil => exact absurd rfl hne
      | cons x xs => rfl
    unfold chooseBestPlaylist
    rw [hie, if_neg Bool.false_ne_true]
    dsimp only
    rw [hhead, ← hfq]
    rfl
  refine ⟨u, q, v', by rw [huv, hv'], hbest, ?_, ?_⟩
  · intro p hp
    have hm : (scorePlaylist mood p, p) ∈ playlists.map (fun p => (scorePlaylist mood p, p)) :=
      List.mem_map_of_mem _ hp
    have := hmax _ hm
    rw [← hfq] at this
    simpa using this
  · intro p hp
    have hm : (scorePlaylist mood p, p) ∈ s₁ := by
      rw [← hu]
      exact List.mem_map_of_mem _ hp
    have := hfirst _ hm
    rw [← hfq] at this
    simpa using this

/-- C3. Ranker tie-break: on every nonempty candidate list the ranker
returns a candidate of maximal score, and every candidate placed before
it in the input list has strictly smaller score (so among equal maximal
scores the earliest candidate wins, by stability of Python's sort). -/
theorem ranker_tie_break (playlists : List Playlist) (mood : String)
    (hne : playlists ≠ []) :
    ∃ l₁ best l₂, playlists = l₁ ++ best :: l₂ ∧
      chooseBestPlaylist playlists mood = some best ∧
      (∀ p ∈ playlists, scorePlaylist mood p ≤ scorePlaylist mood best) ∧
      (∀ p ∈ l₁, scorePlaylist mood p < scorePlaylist mood best) :=
  chooseBestPlaylist_first_max playlists mood hne

/-- The candidate {name: "happy vibes", followers: 2000} of the spec's
ranker-determinism example. -/
def happyVibes : Playlist :=
  { id := some "p1", name := some "happy vibes", description := none,
    owner_display_name := none, external_urls_spotify := none,
    followers_total := some 2000 }

/-- The candidate {name: "sad songs", followers: 50000} of the spec's
ranker-determinism example. -/
def sadSongs : Playlist :=
  { id := some "p2", name := some "sad songs", description := none,
    owner_display_name := none, external_urls_spotify := none,
    followers_total := some 50000 }

/-- Witness for C3: two candidates with equal scores (identical name and
follower count); the ranker picks a maximal candidate preceded only by
strictly smaller scores, which forces the first of the two. -/
theorem ranker_tie_break_witness :
    ([happyVibes, happyVibes] ≠ []) ∧
    ∃ l₁ best l₂, [happyVibes, happyVibes] = l₁ ++ best :: l₂ ∧
      chooseBestPlaylist [happyVibes, happyVibes] "happy" = some best ∧
      (∀ p ∈ [happyVibes, happyVibes],
        scorePlaylist "happy" p ≤ scorePlaylist "happy" best) ∧
      (∀ p ∈ l₁, scorePlaylist "happy" p < scorePlaylist "happy" best) :=
  ⟨by decide, ranker_tie_break [happyVibes, happyVibes] "happy" (by decide)⟩

/-- C2. Ranker scoring: the per-candidate score is 50 for a
case-insensitive substring hit in the name, plus 30 for one in the
description, plus `min(followers // 1000, 20)`; on the spec's example the
first candidate scores 52, the second 20, and the first is selected. -/
theorem ranker_scoring :
    (∀ (hay needle : String), pyContains hay needle = true ↔ needle.data <:+: hay.data) ∧
    (∀ (mood : String) (p : Playlist),
      scorePlaylist mood p =
        (if pyContains (pyLower (p.name.getD "")) (pyLower mood) then 50 else 0)
        + (if pyContains (pyLower (p.description.getD "")) (pyLower mood) then 30 else 0)
        + min ((p.followers_total.getD 0).fdiv 1000) 20) ∧
    scorePlaylist "happy" happyVibes = 52 ∧
    scorePlaylist "happy" sadSongs = 20 ∧
    chooseBestPlaylist [happyVibes, sadSongs] "happy" = some happyVibes := by
  refine ⟨pyContains_iff, fun mood p => rfl, by decide, by decide, ?_⟩
  obtain ⟨l₁, best, l₂, hsplit, hbest, hmax, hfirst⟩ :=
    chooseBestPlaylist_first_max [happyVibes, sadSongs] "happy" (by decide)
  rw [hbest]
  cases l₁ with
  | nil =>
    simp only [List.nil_append] at hsplit
    injection hsplit with h1 h2
    rw [← h1]
  | cons x xs =>
    cases xs with
    | nil =>
      simp only [List.cons_append, List.nil_append] at hsplit
      injection hsplit with h1 h2
      injection h2 with h2 h3
      have hx : x ∈ [x] := List.mem_singleton.mpr rfl
      have hlt := hfirst x hx
      rw [← h1, ← h2] at hlt
      have h52 : scorePlaylist "happy" happyVibes = 52 := by decide
      have h20 : scorePlaylist "happy" sadSongs = 20 := by decide
      rw [h52, h20] at hlt
      exact absurd hlt (by decide)
    | cons y ys =>
      have hlen := congrArg List.length hsplit
      simp at hlen

/-- C8. Formatter postcondition: the rendered lines are the
name/owner header, the link line exactly when an external link is
truthy, the description line exactly when a description is truthy, the
recommendations header, the explicit no-tracks line exactly when the
track list is empty, and one enumerated entry per track (at most 5 for
the at-most-5-track lists the pipeline produces), each entry in the
"rank. name — artists  |  Preview/Link: preview-or-link" shape with the
"No preview" placeholder when neither preview nor link is truthy.
`formatResult` is a pure function of its arguments by construction. -/
theorem formatter_postcondition (p : PlaylistInfo) (ts : List Track) :
    formatResult p ts = String.intercalate "\n" (formatLines p ts) ∧
    (formatLines p ts).head? =
      some ("Recommended playlist: " ++ showPyOpt p.name ++ " (by " ++ showPyOpt p.owner ++ ")") ∧
    (ts = [] → formatLines p ts =
      ["Recommended playlist: " ++ showPyOpt p.name ++ " (by " ++ showPyOpt p.owner ++ ")"]
      ++ (if pyTruthyOpt p.external_url then ["Playlist link: " ++ showPyOpt p.external_url] else [])
      ++ (if pyTruthyOpt p.description then ["Description: " ++ showPyOpt p.description] else [])
      ++ ["\nTop recommendations:", "No tracks found in the playlist."]) ∧
    (ts ≠ [] → formatLines p ts =
      ["Recommended playlist: " ++ showPyOpt p.name ++ " (by " ++ showPyOpt p.owner ++ ")"]
      ++ (if pyTruthyOpt p.external_url then ["Playlist link: " ++ showPyOpt p.external_url] else [])
      ++ (if pyTruthyOpt p.description then ["Description: " ++ showPyOpt p.description] else [])
      ++ ["\nTop recommendations:"]
      ++ ts.enum.map (fun q => trackLine q.1 q.2)) ∧
    (ts.enum.map (fun q => trackLine q.1 q.2)).length = ts.length ∧
    (ts.length ≤ 5 → (ts.enum.map (fun q => trackLine q.1 q.2)).length ≤ 5) ∧
    (∀ i t, pyTruthyOpt t.preview_url = false → pyTruthyOpt t.track_url = false →
      trackLine i t = toString (i + 1) ++ ". " ++ showPyOpt t.name ++ " — " ++ t.artists ++
        "  |  Preview/Link: " ++ "No preview") ∧
    (∀ i t, pyTruthyOpt t.preview_url = true →
      trackLine i t = toString (i + 1) ++ ". " ++ showPyOpt t.name ++ " — " ++ t.artists ++
        "  |  Preview/Link: " ++ t.preview_url.getD "") := by
  refine ⟨rfl, rfl, ?_, ?_, ?_, ?_, ?_, ?_⟩
  · intro h
    subst h
    simp [formatLines]
  · intro h
    have hie : ts.isEmpty = false := by
      cases ts with
      | nil => exact absurd rfl h
      | cons x xs => rfl
    simp [formatLines, hie]
  · simp
  · intro h
    simp
    omega
  · intro i t h1 h2
    simp [trackLine, h1, h2]
  · intro i t h1
    simp [trackLine, h1]

/-- The playlist-info record used in formatter instances. -/
def pInfoW : PlaylistInfo :=
  { id := some "pid", name := some "Chill", description := some "desc",
    external_url := some "http://x", owner := some "own" }

/-- A track with neither preview nor link, used in formatter instances. -/
def trackNoPrev : Track :=
  { name := some "T", artists := "A, B", preview_url := none, track_url := none }

/-- Witness for C8: a concrete empty track list renders the explicit
no-tracks line and no enumerated entries, and a concrete track without
preview or link renders the placeholder. -/
theorem formatter_postcondition_witness :
    formatLines pInfoW [] =
      ["Recommended playlist: " ++ showPyOpt pInfoW.name ++ " (by " ++ showPyOpt pInfoW.owner ++ ")"]
      ++ (if pyTruthyOpt pInfoW.external_url then ["Playlist link: " ++ showPyOpt pInfoW.external_url] else [])
      ++ (if pyTruthyOpt pInfoW.description then ["Description: " ++ showPyOpt pInfoW.description] else [])
      ++ ["\nTop recommendations:", "No tracks found in the playlist."] ∧
    trackLine 0 trackNoPrev =
      toString (0 + 1) ++ ". " ++ showPyOpt trackNoPrev.name ++ " — " ++ trackNoPrev.artists ++
        "  |  Preview/Link: " ++ "No preview" :=
  ⟨(formatter_postcondition pInfoW []).2.2.1 rfl,
   (formatter_postcondition pInfoW []).2.2.2.2.2.2.1 0 trackNoPrev (by decide) (by decide)⟩

/-- C10. The top-level helper `handle_mood_with_agent` is total: every
tool outcome (normal return, `SpotifySearchError`, `SpotifyAuthError`,
`ValueError`, or any other caught exception, and every agent-orchestration
outcome) is converted into a returned message string, with the error
message embedded in the output in the direct and fallback paths. -/
theorem agent_error_containment (agent : AgentRun)
    (outcome : Except PyError (PlaylistInfo × List Track)) :
    (∀ s, agent = .runReturns s → handleMoodWithAgent agent outcome = s) ∧
    (agent = .noAgent → ∀ r, outcome = .ok r →
      handleMoodWithAgent agent outcome = formatResult r.1 r.2) ∧
    (agent = .noAgent → ∀ m, outcome = .error (.searchError m) →
      handleMoodWithAgent agent outcome = "Spotify API error: " ++ m) ∧
    (agent = .noAgent → ∀ e, outcome = .error e → isSearchError outcome = false →
      handleMoodWithAgent agent outcome = "Unexpected error: " ++ pyErrMsg e) ∧
    (∀ m, agent = .runRaises m → ∀ r, outcome = .ok r →
      handleMoodWithAgent agent outcome =
        "(Agent orchestration failed with: " ++ m ++ ")\nFalling back to direct Spotify call.\n"
          ++ formatResult r.1 r.2) ∧
    (∀ m, agent = .runRaises m → ∀ e, outcome = .error e →
      handleMoodWithAgent agent outcome =
        "(Agent orchestration failed with: " ++ m ++ ")\nFalling back to direct Spotify call.\n"
          ++ "Also failed to get data from Spotify: " ++ pyErrMsg e) ∧
    (agent = .noAgent → ∀ e, outcome = .error e →
      List.IsInfix (pyErrMsg e).data (handleMoodWithAgent agent outcome).data) := by
  refine ⟨?_, ?_, ?_, ?_, ?_, ?_, ?_⟩
  · intro s hs
    subst hs
    rfl
  · intro ha r hr
    subst ha; subst hr
    rfl
  · intro ha m hm
    subst ha; subst hm
    rfl
  · intro ha e he hns
    subst ha; subst he
    cases e with
    | authError m => rfl
    | searchError m => simp [isSearchError] at hns
    | valueError m => rfl
  · intro m hm r hr
    subst hm; subst hr
    rfl
  · intro m hm e he
    subst hm; subst he
    rfl
  · intro ha e he
    subst ha; subst he
    cases e with
    | authError m =>
      exact ⟨("Unexpected error: ").data, [],
        by simp [handleMoodWithAgent, pyErrMsg, String.data_append]⟩
    | searchError m =>
      exact ⟨("Spotify API error: ").data, [],
        by simp [handleMoodWithAgent, pyErrMsg, String.data_append]⟩
    | valueError m =>
      exact ⟨("Unexpected error: ").data, [],
        by simp [handleMoodWithAgent, pyErrMsg, String.data_append]⟩

/-- Witness for C10: a concrete `SpotifyAuthError` raised by the tool is
converted into the "Unexpected error" message string. -/
theorem agent_error_containment_witness :
    handleMoodWithAgent .noAgent (.error (.authError "bad creds")) =
      "Unexpected error: " ++ pyErrMsg (.authError "bad creds") :=
  (agent_error_containment .noAgent (.error (.authError "bad creds"))).2.2.2.1
    rfl (.authError "bad creds") rfl (by decide)
